import Mathlib

/-!
Verification development for the `garminexport` Garmin Connect client
(`garminexport/garminclient.py`, plus the command-line drivers
`get_data.py` and `get_activity.py`).

The Python module is shallowly embedded below.  Network interaction is
modelled by passing an explicit `Session` value (the behaviour of the
`requests.Session` object together with the upstream service): a GET is
the application of `Session.getResp` to the request URL, the upload POST
is `Session.postUpload` applied to the chosen format, and the metadata
PUT is `Session.putMetadata` applied to the activity id and the JSON
body.  Python exceptions are modelled with the `PyError` type and
fallible code returns `Except PyError`.

The repository targets Python 2.7 (see `setup.py`); name-resolution
errors (`NameError` for a global that is not bound in the module) and
`TypeError` from `json.loads(None)` are embedded where the source would
raise them at run time.
-/

set_option linter.unusedVariables false

/-- Response to a single HTTP request: status code and body text.
Bodies are modelled as `String` (Python 2 `str` covers both text and the
bytes of `response.content`). -/
structure HttpResponse where
  status_code : Nat
  text : String

/-- Minimal JSON value type, the codomain of `json.loads` and the value
type of the metadata dictionary serialized by `json.dumps` in
`upload_activity`. -/
inductive Json where
  | null
  | str (s : String)
  | num (n : Int)
  | arr (elems : List Json)
  | obj (members : List (String × Json))

/-- Python exceptions raised by the module.  `exception` is a plain
`Exception(msg)` with the already-formatted message; `valueError`,
`runtimeError` and `typeError` are the corresponding built-in classes.
`nameError n` models `NameError: name n is not defined` (a reference to
a global that is unbound in `garminclient.py`); `attributeError o a`
models `AttributeError` raised when attribute `a` is looked up on `o`.
`uploadFailures` and `uploadMultiple` model the two `Exception(...)`
raises of `upload_activity` (lines 356-360) whose messages interpolate
the Python repr of structured data; the interpolated values are carried
structurally. -/
inductive PyError where
  | exception (msg : String)
  | valueError (msg : String)
  | runtimeError (msg : String)
  | typeError (msg : String)
  | nameError (name : String)
  | attributeError (obj attr : String)
  | uploadFailures (format : String) (status : Nat) (failures : List Json)
  | uploadMultiple (format : String) (count : Nat)

/-- One entry of the decoded activity-search JSON array, restricted to
the two fields `_fetch_activity_ids_and_ts` reads.  `startTimeGMT`
stands for the already-parsed UTC timestamp (the composition of
`dateutil.parser.parse` and the `tzinfo` replacement), modelled as an
opaque `Nat`. -/
structure ActivityJson where
  activityId : Nat
  startTimeGMT : Nat

/-- Result of the multipart upload POST as seen by `upload_activity`:
either `response.json()["detailedImportResult"]` is available
(`ok`, with the `failures` list and the `internalId`s of the
`successes`), or decoding it fails (`malformed`), in which case the
`except (json.JSONDecodeException, KeyError)` clause is entered. -/
structure DetailedImportResult where
  failures : List Json
  successes : List Int

inductive UploadPostResult where
  | malformed (resp : HttpResponse)
  | ok (resp : HttpResponse) (j : DetailedImportResult)

/-- Behaviour of one `requests.Session` object together with the
upstream service: GET by URL, the SSO login POST, the upload POST
(keyed by the format placed in the URL), and the metadata PUT (keyed by
activity id and JSON body, the body being the association list
serialized by `json.dumps`). -/
structure Session where
  getResp : String → HttpResponse
  postLogin : HttpResponse
  postUpload : String → UploadPostResult
  putMetadata : Int → List (String × Json) → HttpResponse

/-- State of a `GarminClient` instance: the three constructor fields
and the `session` slot, which is `None` until `connect()` assigns a
fresh session object. -/
structure GarminClient where
  username : String
  password : Option String
  user : Option String
  session : Option Session

/-! URL constants and URL builders (lines 24-25 and the per-fetcher
format strings).  `requests` encodes the `params` dict as a query
string, which the builders spell out.  Note that the source
concatenates `GARMIN_API_URL` with strings that do not always begin
with a slash; the builders reproduce the concatenation verbatim. -/

def SSO_LOGIN_URL : String := "https://sso.garmin.com/sso/login"

def GARMIN_API_URL : String := "https://connect.garmin.com/modern/proxy"

/-- Python `"{}".format(x)` on an optional string: `None` renders as
the literal text `None`. -/
def pyFormatOptStr : Option String → String
  | some s => s
  | none => "None"

def activitiesUrl (start_index max_limit : Nat) : String :=
  GARMIN_API_URL ++ "activitylist-service/activities/search/activities?start="
    ++ Nat.repr start_index ++ "&limit=" ++ Nat.repr max_limit

def daily_sleep_url (user : Option String) (request_date : String) : String :=
  GARMIN_API_URL ++ "/wellness-service/wellness/dailySleepData/" ++ pyFormatOptStr user
    ++ "?date=" ++ request_date ++ "&nonSleepBufferMinutes=60"

def daily_hr_url (user : Option String) (request_date : String) : String :=
  GARMIN_API_URL ++ "/wellness-service/wellness/dailyHeartRate/" ++ pyFormatOptStr user
    ++ "?date=" ++ request_date ++ "&_=1532359756927"

def daily_movement_url (user : Option String) (request_date : String) : String :=
  GARMIN_API_URL ++ "/wellness-service/wellness/dailyMovement/" ++ pyFormatOptStr user
    ++ "?calendarDate=" ++ request_date ++ "&_=1532359756928"

def user_summary_url (user : Option String) (request_date : String) : String :=
  GARMIN_API_URL ++ "/usersummary-service/usersummary/daily/" ++ pyFormatOptStr user
    ++ "?calendarDate=" ++ request_date ++ "&_=1532359756925"

def activity_summary_url (activity_id : Nat) : String :=
  GARMIN_API_URL ++ "activity-service/activity/" ++ Nat.repr activity_id

def activity_details_url (activity_id : Nat) : String :=
  GARMIN_API_URL ++ "activity-service-1.3/json/activityDetails/" ++ Nat.repr activity_id

def activity_gpx_url (activity_id : Nat) : String :=
  GARMIN_API_URL ++ "download-service/export/gpx/activity/" ++ Nat.repr activity_id

def activity_tcx_url (activity_id : Nat) : String :=
  GARMIN_API_URL ++ "download-service/export/tcx/activity/" ++ Nat.repr activity_id

def original_activity_url (activity_id : Nat) : String :=
  GARMIN_API_URL ++ "download-service/files/activity/" ++ Nat.repr activity_id

/-! Error values and message builders.  Messages are built exactly as
the Python format strings do, with the placeholders replaced by the
interpolated values. -/

/-- The exception raised by the `require_session` decorator
(lines 27-34).  The trailing apostrophe is present in the source
string. -/
def usageError : PyError :=
  .exception "Attempt to use GarminClient without being connected. Call connect() before first use.\x27"

/-- Message of the `Exception` raised by `get_data` on a status other
than 200/404/204 (line 320). -/
def failedFetchJsonMsg (status : Nat) (body : String) : String :=
  "Failed to fetch json " ++ Nat.repr status ++ "\n" ++ body

/-- Message of the `Exception` raised by `_fetch_activity_ids_and_ts`
on a non-200 status (line 167). -/
def failedFetchActivitiesMsg (start_index max_limit status : Nat) (body : String) : String :=
  "failed to fetch activities " ++ Nat.repr start_index ++ " to "
    ++ Nat.repr (start_index + max_limit - 1) ++ " types: " ++ Nat.repr status ++ "\n" ++ body

/-- Message of the `Exception` raised by `get_original_activity` on a
status other than 200/404 (line 284). -/
def failedOriginalMsg (activity_id status : Nat) (body : String) : String :=
  "Failed to get original activity file for " ++ Nat.repr activity_id ++ ": "
    ++ Nat.repr status ++ "\n" ++ body

/-- Message of the `Exception` raised by `upload_activity` when the
file format cannot be guessed (line 346). -/
def couldNotGuessMsg (fn : String) : String :=
  "Could not guess file type for " ++ fn

/-- Message of the `Exception` raised when the metadata update PUT does
not return 204 (line 374). -/
def metadataFailedMsg (activity_id : Int) (status : Nat) (body : String) : String :=
  "failed to set metadata for activity " ++ toString activity_id ++ ": "
    ++ Nat.repr status ++ "\n" ++ body

def extractTicketFailMsg : String :=
  "auth failure: unable to extract auth ticket URL. did you provide a correct username/password?"

/-- Message of the `RuntimeError` raised when claiming the auth ticket
fails (line 108). -/
def claimTicketFailMsg (url : String) (status : Nat) (body : String) : String :=
  "auth failure: failed to claim auth ticket: " ++ url ++ ": " ++ Nat.repr status ++ "\n" ++ body

/-! The `require_session` decorator (lines 27-34): raise the usage
exception when `client_object.session` is falsy (`None`), otherwise
run the wrapped operation. -/

def require_session_check (session : Option Session) : Except PyError Unit :=
  match session with
  | none => .error usageError
  | some _ => .ok ()

/-! `connect` / `disconnect` / `_authenticate` /
`_extract_auth_ticket_url` (lines 76-124).

`_extract_auth_ticket_url` performs
`re.search(r'response_url\s*=\s*"(https:[^"]+)"', auth_response)`.
The matcher below implements exactly this regular expression on the
character list of the response body: at some position, the literal
text `response_url`, optional whitespace, `=`, optional whitespace, a
double quote, then group 1, which is `https:` followed by at least one
further non-quote character, then the closing double quote. -/

/-- Python regex `\s` on the ASCII range (the inputs of interest are
ASCII). -/
def pyIsSpace (c : Char) : Bool :=
  c = ' ' ∨ c = '\t' ∨ c = '\n' ∨ c = '\x0d' ∨ c = '\x0b' ∨ c = '\x0c'

/-- Try to match the ticket regex starting exactly at the head of `l`,
returning group 1 on success. -/
def matchTicketAt (l : List Char) : Option String :=
  if "response_url".data.isPrefixOf l then
    let r1 := (l.drop 12).dropWhile pyIsSpace
    match r1 with
    | '=' :: r2 =>
      match r2.dropWhile pyIsSpace with
      | '"' :: r3 =>
        if "https:".data.isPrefixOf r3 then
          let body := r3.takeWhile (fun c => c ≠ '"')
          match r3.dropWhile (fun c => c ≠ '"') with
          | '"' :: _ => if 7 ≤ body.length then some ⟨body⟩ else none
          | _ => none
        else none
      | _ => none
    | _ => none
  else none

/-- `re.search`: try the pattern at every position, leftmost match
wins. -/
def reSearchTicket : List Char → Option String
  | [] => none
  | c :: rest =>
    match matchTicketAt (c :: rest) with
    | some g => some g
    | none => reSearchTicket rest

/-- Python `str.replace("\\", "")`: drop every backslash. -/
def removeBackslashes (s : String) : String :=
  ⟨s.data.filter (fun c => c ≠ '\\')⟩

/-- Embeds `_extract_auth_ticket_url` (lines 119-124). -/
def extract_auth_ticket_url (auth_response : String) : Except PyError String :=
  match reSearchTicket auth_response.data with
  | none => .error (.runtimeError extractTicketFailMsg)
  | some g => .ok (removeBackslashes g)

/-- Embeds `_authenticate` (lines 86-110): POST the login form, fail
with `ValueError` on a non-200 status, extract the ticket URL, GET it,
fail with `RuntimeError` on a non-200 status; the final GET of the
legacy session endpoint ignores its result. -/
def _authenticate (sess : Session) : Except PyError Unit :=
  let auth_response := sess.postLogin
  if auth_response.status_code ≠ 200 then
    .error (.valueError "authentication failure: did you enter valid credentials?")
  else
    match extract_auth_ticket_url auth_response.text with
    | .error e => .error e
    | .ok auth_ticket_url =>
      let response := sess.getResp auth_ticket_url
      if response.status_code ≠ 200 then
        .error (.runtimeError (claimTicketFailMsg auth_ticket_url response.status_code response.text))
      else .ok ()

/-- Embeds `connect` (lines 76-79).  `self.session` is assigned the
fresh session object first; `_authenticate` runs only when
`self.password != None`.  The updated client state is returned in both
the success and the failure case, because the Python assignment has
already happened when `_authenticate` raises. -/
def connect (sess : Session) (c : GarminClient) : Except PyError Unit × GarminClient :=
  let c' : GarminClient := { c with session := some sess }
  match c.password with
  | none => (.ok (), c')
  | some _ =>
    match _authenticate sess with
    | .error e => (.error e, c')
    | .ok _ => (.ok (), c')

/-- Embeds `disconnect` (lines 81-84). -/
def disconnect (c : GarminClient) : GarminClient :=
  match c.session with
  | none => c
  | some _ => { c with session := none }

/-! Resource fetchers (lines 134-321). -/

/-- Embeds `get_data` (lines 313-321), including its
`require_session` decorator: 404 and 204 map to `None`, any other
non-200 status raises, 200 returns `response.text`. -/
def get_data (session : Option Session) (get_url : String) : Except PyError (Option String) :=
  match session with
  | none => .error usageError
  | some sess =>
    let response := sess.getResp get_url
    if response.status_code = 404 ∨ response.status_code = 204 then .ok none
    else if response.status_code ≠ 200 then
      .error (.exception (failedFetchJsonMsg response.status_code response.text))
    else .ok (some response.text)

/-- Embeds `json.loads` applied to the result of `get_data`
(line 310).  `decode` is the ambient JSON grammar (the behaviour of
`json.loads` on the body strings of interest); `json.loads(None)`
raises `TypeError` in Python 2.7 before any decoding is attempted. -/
def json_loads (decode : String → Option Json) : Option String → Except PyError Json
  | none => .error (.typeError "expected string or buffer")
  | some s =>
    match decode s with
    | some j => .ok j
    | none => .error (.valueError "No JSON object could be decoded")

/-- Embeds `get_json_data` (lines 309-311): `get_data` (which carries
the session check) followed by `json.loads` of its result. -/
def get_json_data (decode : String → Option Json) (session : Option Session)
    (get_url : String) : Except PyError Json :=
  match get_data session get_url with
  | .error e => .error e
  | .ok d => json_loads decode d

/-- Embeds `get_daily_sleep_data` (lines 181-184). -/
def get_daily_sleep_data (decode : String → Option Json) (c : GarminClient)
    (request_date : String) : Except PyError Json :=
  match require_session_check c.session with
  | .error e => .error e
  | .ok _ => get_json_data decode c.session (daily_sleep_url c.user request_date)

/-- Embeds `get_daily_hr_data` (lines 186-189). -/
def get_daily_hr_data (decode : String → Option Json) (c : GarminClient)
    (request_date : String) : Except PyError Json :=
  match require_session_check c.session with
  | .error e => .error e
  | .ok _ => get_json_data decode c.session (daily_hr_url c.user request_date)

/-- Embeds `get_daily_movement` (lines 191-194). -/
def get_daily_movement (decode : String → Option Json) (c : GarminClient)
    (request_date : String) : Except PyError Json :=
  match require_session_check c.session with
  | .error e => .error e
  | .ok _ => get_json_data decode c.session (daily_movement_url c.user request_date)

/-- Embeds `get_user_summary` (lines 196-199). -/
def get_user_summary (decode : String → Option Json) (c : GarminClient)
    (request_date : String) : Except PyError Json :=
  match require_session_check c.session with
  | .error e => .error e
  | .ok _ => get_json_data decode c.session (user_summary_url c.user request_date)

/-- Embeds `get_activity_summary` (lines 212-215).  Line 215 reads
`return get_json_data(activity_summary_url)` with no `self.`: the
bare name `get_json_data` is not bound at module level in
`garminclient.py`, so after the decorator check and the URL
construction (which has no side effects) every call raises
`NameError`. -/
def get_activity_summary (c : GarminClient) (activity_id : Nat) : Except PyError Json :=
  match require_session_check c.session with
  | .error e => .error e
  | .ok _ =>
    let activity_summary_url := activity_summary_url activity_id
    .error (.nameError "get_json_data")

/-- Embeds `get_activity_details` (lines 227-230).  Line 230 calls
`get_json_url(activity_details_url)`; `get_json_url` is defined
nowhere in the module, so every call raises `NameError` after the
decorator check. -/
def get_activity_details (c : GarminClient) (activity_id : Nat) : Except PyError Json :=
  match require_session_check c.session with
  | .error e => .error e
  | .ok _ =>
    let activity_details_url := activity_details_url activity_id
    .error (.nameError "get_json_url")

/-- Embeds `get_activity_gpx` (lines 244-247). -/
def get_activity_gpx (c : GarminClient) (activity_id : Nat) : Except PyError (Option String) :=
  match require_session_check c.session with
  | .error e => .error e
  | .ok _ => get_data c.session (activity_gpx_url activity_id)

/-- Embeds `get_activity_tcx` (lines 262-265). -/
def get_activity_tcx (c : GarminClient) (activity_id : Nat) : Except PyError (Option String) :=
  match require_session_check c.session with
  | .error e => .error e
  | .ok _ => get_data c.session (activity_tcx_url activity_id)

/-- Embeds `get_original_activity` (lines 279-291).  The method has no
`require_session` decorator: with `self.session = None` the attribute
access `self.session.get` raises `AttributeError` (not the usage
exception).  On 404 it returns `(None, None)`; on any other non-200
status it raises; on 200 it evaluates `StringIO(response.content)`,
and `StringIO` is not imported in the module (only `BytesIO` is), so
`NameError` is raised before the archive is opened — lines 287-291 are
unreachable. -/
def get_original_activity (c : GarminClient) (activity_id : Nat) :
    Except PyError (Option String × Option String) :=
  match c.session with
  | none => .error (.attributeError "NoneType" "get")
  | some sess =>
    let response := sess.getResp (original_activity_url activity_id)
    if response.status_code = 404 then .ok (none, none)
    else if response.status_code ≠ 200 then
      .error (.exception (failedOriginalMsg activity_id response.status_code response.text))
    else .error (.nameError "StringIO")

/-- Embeds `get_activity_fit` (lines 305-307), also undecorated: it
delegates to `get_original_activity` and returns the contents only
when the format is `fit`. -/
def get_activity_fit (c : GarminClient) (activity_id : Nat) : Except PyError (Option String) :=
  match get_original_activity c activity_id with
  | .error e => .error e
  | .ok (fmt, orig_file) => .ok (if fmt = some "fit" then orig_file else none)

/-! Paginated activity listing (lines 134-179). -/

/-- Embeds `_fetch_activity_ids_and_ts` (lines 162-179).  `parse` is
the ambient behaviour of `json.loads` on the response body followed by
the per-entry field extraction and timestamp parsing (assumed to
succeed, as the spec assumes well-formed upstream documents); the
empty-document check `if not activities: return []` and the non-200
raise are embedded directly. -/
def fetch_activity_ids_and_ts (parse : String → List ActivityJson) (c : GarminClient)
    (start_index max_limit : Nat) : Except PyError (List (Nat × Nat)) :=
  match require_session_check c.session with
  | .error e => .error e
  | .ok _ =>
    match c.session with
    | none => .error usageError
    | some sess =>
      let response := sess.getResp (activitiesUrl start_index max_limit)
      if response.status_code ≠ 200 then
        .error (.exception
          (failedFetchActivitiesMsg start_index max_limit response.status_code response.text))
      else
        let activities := parse response.text
        if activities.isEmpty then .ok []
        else .ok (activities.map (fun a => (a.activityId, a.startTimeGMT)))

/-- Python `sys.maxsize` on a 64-bit build. -/
def sysMaxsize : Nat := 9223372036854775807

/-- Number of iterations available to the `for start_index in
range(0, sys.maxsize, batch_size)` loop of `list_activities` with
`batch_size = 100` (the length of that range). -/
def rangeLen : Nat := (sysMaxsize + 99) / 100

/-- The loop body of `list_activities` (lines 136-143): fetch the next
batch at `start_index`, stop (returning the accumulated `ids`) on an
empty batch, otherwise extend `ids` and continue at
`start_index + 100`; the loop also ends when the range is exhausted. -/
def list_activities_loop (fetch : Nat → Except PyError (List (Nat × Nat)))
    (ids : List (Nat × Nat)) : Nat → Nat → Except PyError (List (Nat × Nat))
  | 0, _ => .ok ids
  | fuel + 1, start_index =>
    match fetch start_index with
    | .error e => .error e
    | .ok next_batch =>
      if next_batch.isEmpty then .ok ids
      else list_activities_loop fetch (ids ++ next_batch) fuel (start_index + 100)

/-- Embeds `list_activities` (lines 134-143). -/
def list_activities (parse : String → List ActivityJson) (c : GarminClient) :
    Except PyError (List (Nat × Nat)) :=
  match require_session_check c.session with
  | .error e => .error e
  | .ok _ =>
    list_activities_loop (fun s => fetch_activity_ids_and_ts parse c s 100) [] rangeLen 0

/-! Upload (lines 335-376). -/

/-- Python `os.path.basename` on a POSIX path: everything after the
last slash. -/
def pyBasename (p : String) : String :=
  ⟨(p.data.reverse.takeWhile (fun c => c ≠ '/')).reverse⟩

/-- Index of the last dot in the list, if any. -/
def lastDotIndex (cs : List Char) : Option Nat :=
  (List.range cs.length).foldl
    (fun acc i => if cs.get? i = some '.' then some i else acc) none

/-- Python `os.path.splitext` restricted to a basename (no slashes):
split at the last dot, unless every character before it is itself a
dot (leading dots do not start an extension), in which case the
extension is empty. -/
def splitextBase (b : String) : String × String :=
  let cs := b.data
  match lastDotIndex cs with
  | none => (b, "")
  | some i =>
    if (cs.take i).all (fun c => c = '.') then (b, "")
    else (⟨cs.take i⟩, ⟨cs.drop i⟩)

/-- Python 2 `str.lower()` (ASCII lower-casing), character by
character. -/
def pyLower (s : String) : String :=
  ⟨s.data.map Char.toLower⟩

/-- Python `None` / string rendered as a JSON value by `json.dumps`. -/
def jsonOfPyStr : Option String → Json
  | some s => .str s
  | none => .null

/-- Embeds the metadata dictionary construction of `upload_activity`
(lines 364-368), as the association list later serialized by
`json.dumps` (the Python dict is unordered; only key lookup is
meaningful).  Note line 366: when a description argument was supplied,
the `description` key is assigned `name` — the Python variable `name`,
not `description` — and `json.dumps` renders `None` as `null`.
`privacy` is added only when `private` is truthy (`if private:`), i.e.
exactly when the argument is `True`. -/
def build_upload_data (name description activity_type : Option String)
    (priv : Option Bool) : List (String × Json) :=
  (match name with
    | some n => [("activityName", Json.str n)]
    | none => [])
  ++ (match description with
    | some _ => [("description", jsonOfPyStr name)]
    | none => [])
  ++ (match activity_type with
    | some t => [("activityTypeDTO", Json.obj [("typeKey", Json.str t)])]
    | none => [])
  ++ (match priv with
    | some true => [("privacy", Json.obj [("typeKey", Json.str "private")])]
    | _ => [])

/-- Embeds `upload_activity` (lines 335-376), including its
`require_session` decorator.  `fileName` is the `name` attribute of
the (possibly opened) file argument; opening the file is I/O with no
bearing on the claims.  When no format is given, it is guessed from
the lower-cased extension, accepting only `.gpx`, `.tcx`, `.fit`,
otherwise raising before the upload POST.  On a well-formed import
result: any failure entry or a success count other than one raises;
on exactly one success, the optional metadata is PUT (the request is
issued only when the dictionary is non-empty) and a non-204 PUT
response raises.  When `response.json()["detailedImportResult"]`
cannot be obtained, Python enters the
`except (json.JSONDecodeException, KeyError)` clause; evaluating that
tuple itself raises `AttributeError`, because the `json` module has no
attribute `JSONDecodeException` — so the modelled error for a
malformed response is that `AttributeError`. -/
def upload_activity (session : Option Session) (fileName : String)
    (format name description activity_type : Option String) (priv : Option Bool) :
    Except PyError Int :=
  match session with
  | none => .error usageError
  | some sess =>
    let fn := pyBasename fileName
    let ext := (splitextBase fn).2
    let fmtResult : Except PyError String :=
      match format with
      | some f => .ok f
      | none =>
        let lext := pyLower ext
        if lext = ".gpx" ∨ lext = ".tcx" ∨ lext = ".fit" then .ok (lext.drop 1)
        else .error (.exception (couldNotGuessMsg fn))
    match fmtResult with
    | .error e => .error e
    | .ok fmt =>
      match sess.postUpload fmt with
      | .malformed _ => .error (.attributeError "json" "JSONDecodeException")
      | .ok response j =>
        if j.failures.length ≠ 0 ∨ j.successes.length < 1 then
          .error (.uploadFailures fmt response.status_code j.failures)
        else if 1 < j.successes.length then
          .error (.uploadMultiple fmt j.successes.length)
        else
          match j.successes with
          | [] => .error (.exception "IndexError: list index out of range")
          | activity_id :: _ =>
            let data := build_upload_data name description activity_type priv
            if data.isEmpty then .ok activity_id
            else
              let body := data ++ [("activityId", Json.num activity_id)]
              let put_response := sess.putMetadata activity_id body
              if put_response.status_code ≠ 204 then
                .error (.exception
                  (metadataFailedMsg activity_id put_response.status_code put_response.text))
              else .ok activity_id

/-! Helper notions and lemmas. -/

/-- The text `needle` occurs contiguously inside `hay`. -/
def strContains (hay needle : String) : Prop :=
  needle.data <:+: hay.data

theorem strContains_right (a b : String) : strContains (a ++ b) b :=
  ⟨a.data, [], by simp⟩

theorem strContains_mid2 (a b c d : String) : strContains (a ++ b ++ c ++ d) b :=
  ⟨a.data, c.data ++ d.data, by simp⟩

theorem loop_ok_cons (fetch : Nat → Except PyError (List (Nat × Nat)))
    (ids : List (Nat × Nat)) (fuel start : Nat) (b : List (Nat × Nat))
    (hfuel : fuel ≠ 0) (hb : fetch start = .ok b) (hne : b ≠ []) :
    list_activities_loop fetch ids fuel start
      = list_activities_loop fetch (ids ++ b) (fuel - 1) (start + 100) := by
  cases fuel with
  | zero => exact absurd rfl hfuel
  | succ f =>
    cases b with
    | nil => exact absurd rfl hne
    | cons x xs => simp [list_activities_loop, hb]

theorem loop_ok_nil (fetch : Nat → Except PyError (List (Nat × Nat)))
    (ids : List (Nat × Nat)) (fuel start : Nat)
    (hfuel : fuel ≠ 0) (hb : fetch start = .ok []) :
    list_activities_loop fetch ids fuel start = .ok ids := by
  cases fuel with
  | zero => exact absurd rfl hfuel
  | succ f => simp [list_activities_loop, hb]

/-! Concrete environments used by the concrete-input theorems below. -/

/-- A decoder that never recognizes a document (it is never consulted
by the theorems that use it). -/
def decode0 : String → Option Json := fun _ => none

/-- A parser that always yields the empty activity list. -/
def parse0 : String → List ActivityJson := fun _ => []

/-- Session whose every GET returns 404. -/
def sess404 : Session :=
  { getResp := fun _ => ⟨404, "not found"⟩
    postLogin := ⟨200, ""⟩
    postUpload := fun _ => .malformed ⟨404, ""⟩
    putMetadata := fun _ _ => ⟨204, ""⟩ }

/-- Session whose every GET returns 204 with an empty body. -/
def sess204 : Session :=
  { getResp := fun _ => ⟨204, ""⟩
    postLogin := ⟨200, ""⟩
    postUpload := fun _ => .malformed ⟨204, ""⟩
    putMetadata := fun _ _ => ⟨204, ""⟩ }

/-- Session whose every GET returns 200 with body `payload`. -/
def sess200 : Session :=
  { getResp := fun _ => ⟨200, "payload"⟩
    postLogin := ⟨200, ""⟩
    postUpload := fun _ => .malformed ⟨200, ""⟩
    putMetadata := fun _ _ => ⟨204, ""⟩ }

def client404 : GarminClient := ⟨"user", some "pw", some "me", some sess404⟩

def client204 : GarminClient := ⟨"user", some "pw", some "me", some sess204⟩

def client200 : GarminClient := ⟨"user", some "pw", some "me", some sess200⟩

/-- A client on which `connect()` has not been called. -/
def clientNoSession : GarminClient := ⟨"user", some "pw", none, none⟩

/-! Claim theorems. -/

/-- C1: the claim says every fetcher maps 404/204 to the designated
absent value without error.  On the code this fails: `get_data` does
return `None` for 404/204 (so the GPX/TCX fetchers comply), but
`get_json_data` immediately evaluates `json.loads(None)`, which raises
`TypeError`, so all four daily JSON fetchers raise on 404 and on 204;
and `get_original_activity` maps only 404 to `(None, None)` — a 204
response falls into its `status_code != 200` raise.  This theorem
evaluates the embedded code at the failing inputs. -/
theorem daily_json_fetchers_error_on_absent_status :
    get_daily_sleep_data decode0 client404 "2020-01-01"
        = .error (.typeError "expected string or buffer")
    ∧ get_daily_hr_data decode0 client204 "2020-01-01"
        = .error (.typeError "expected string or buffer")
    ∧ get_daily_movement decode0 client404 "2020-01-01"
        = .error (.typeError "expected string or buffer")
    ∧ get_user_summary decode0 client204 "2020-01-01"
        = .error (.typeError "expected string or buffer")
    ∧ get_activity_gpx client404 7 = .ok none
    ∧ get_activity_tcx client204 7 = .ok none
    ∧ get_original_activity client404 7 = .ok (none, none)
    ∧ get_original_activity client204 7
        = .error (.exception (failedOriginalMsg 7 204 "")) :=
  ⟨rfl, rfl, rfl, rfl, rfl, rfl, rfl, rfl⟩

/-- C5: on a connected client with a 200 response, `get_activity_gpx`
and `get_activity_tcx` do return the response body, but
`get_activity_summary` raises `NameError` (line 215 calls the unbound
module-level name `get_json_data`), `get_activity_details` raises
`NameError` (line 230 calls the undefined `get_json_url`), and
`get_original_activity` raises `NameError` (line 286 references the
un-imported `StringIO`), instead of returning the decoded payload. -/
theorem broken_fetchers_name_error :
    get_activity_summary client200 42 = .error (.nameError "get_json_data")
    ∧ get_activity_details client200 42 = .error (.nameError "get_json_url")
    ∧ get_original_activity client200 42 = .error (.nameError "StringIO")
    ∧ get_activity_gpx client200 42 = .ok (some "payload")
    ∧ get_activity_tcx client200 42 = .ok (some "payload") :=
  ⟨rfl, rfl, rfl, rfl, rfl⟩

/-- C2 counterexample: `get_original_activity` has no
`require_session` decorator, so on a client that never connected it
fails with `AttributeError` (from `self.session.get` with
`self.session = None`), not with the usage error the claim asserts for
every resource-fetching operation. -/
theorem original_activity_missing_session_not_usage_error :
    get_original_activity clientNoSession 5
        = .error (.attributeError "NoneType" "get")
    ∧ (Except.error (PyError.attributeError "NoneType" "get")
        : Except PyError (Option String × Option String))
        ≠ .error usageError := by
  refine ⟨rfl, ?_⟩
  intro h
  simp only [usageError, Except.error.injEq] at h
  exact PyError.noConfusion h

/-- C2 amended: every fetcher that carries the `require_session`
decorator (the four daily fetchers, activity summary/details/GPX/TCX,
the activity listing and its batch helper, `get_data`, and
`upload_activity`) fails with the usage error when the session is
absent, and no network request is issued (the session, the only route
to the network, is never consulted); but `get_original_activity` and
`get_activity_fit` are undecorated and instead fail with
`AttributeError` on the `None` session — also without any network
request.  `disconnect()` clears the session, restoring this state. -/
theorem require_session_gate_amended
    (decode : String → Option Json) (parse : String → List ActivityJson)
    (u : String) (pw us : Option String) (d url fileName : String) (aid : Nat)
    (sess : Session) (fmt name desc atype : Option String) (p : Option Bool) :
    get_daily_sleep_data decode ⟨u, pw, us, none⟩ d = .error usageError
    ∧ get_daily_hr_data decode ⟨u, pw, us, none⟩ d = .error usageError
    ∧ get_daily_movement decode ⟨u, pw, us, none⟩ d = .error usageError
    ∧ get_user_summary decode ⟨u, pw, us, none⟩ d = .error usageError
    ∧ get_activity_summary ⟨u, pw, us, none⟩ aid = .error usageError
    ∧ get_activity_details ⟨u, pw, us, none⟩ aid = .error usageError
    ∧ get_activity_gpx ⟨u, pw, us, none⟩ aid = .error usageError
    ∧ get_activity_tcx ⟨u, pw, us, none⟩ aid = .error usageError
    ∧ list_activities parse ⟨u, pw, us, none⟩ = .error usageError
    ∧ fetch_activity_ids_and_ts parse ⟨u, pw, us, none⟩ aid 100 = .error usageError
    ∧ get_data none url = .error usageError
    ∧ upload_activity none fileName fmt name desc atype p = .error usageError
    ∧ get_original_activity ⟨u, pw, us, none⟩ aid
        = .error (.attributeError "NoneType" "get")
    ∧ get_activity_fit ⟨u, pw, us, none⟩ aid
        = .error (.attributeError "NoneType" "get")
    ∧ (disconnect ⟨u, pw, us, some sess⟩).session = none :=
  ⟨rfl, rfl, rfl, rfl, rfl, rfl, rfl, rfl, rfl, rfl, rfl, rfl, rfl, rfl, rfl⟩

/-- Session whose login POST succeeds with a body in which the ticket
pattern does not occur. -/
def sessNoTicket : Session :=
  { getResp := fun _ => ⟨200, "ok"⟩
    postLogin := ⟨200, "<html>login page, no ticket</html>"⟩
    postUpload := fun _ => .malformed ⟨200, ""⟩
    putMetadata := fun _ _ => ⟨204, ""⟩ }

/-- C4 counterexample: the claim asserts that after a failed
`connect()` (ticket pattern missing) the client holds no session.  On
the code, `connect` assigns `self.session = requests.Session()` before
authenticating and the assignment survives the raise: starting from a
client with no session, the failed `connect` leaves a session in
place. -/
theorem connect_failed_auth_retains_session_cex :
    (connect sessNoTicket clientNoSession).1
        = .error (.runtimeError extractTicketFailMsg)
    ∧ clientNoSession.session.isSome = false
    ∧ (connect sessNoTicket clientNoSession).2.session.isSome = true :=
  ⟨rfl, rfl, rfl⟩

/-- C4 amended: for every authentication response with status 200 in
whose body the ticket-URL pattern does not occur, `connect()` on a
client with a password fails with the authentication error
(`RuntimeError`, "unable to extract auth ticket URL"), but the client
does hold a session afterwards: the fresh session object assigned at
the start of `connect` is retained, so the session state is not the
same as before the call. -/
theorem connect_missing_ticket_pattern (sess : Session) (u p : String)
    (us : Option String) (s0 : Option Session)
    (hstatus : sess.postLogin.status_code = 200)
    (hmatch : reSearchTicket sess.postLogin.text.data = none) :
    connect sess ⟨u, some p, us, s0⟩
      = (.error (.runtimeError extractTicketFailMsg), ⟨u, some p, us, some sess⟩) := by
  simp [connect, _authenticate, extract_auth_ticket_url, hstatus, hmatch]

/-- Witness for C4: the amended theorem applied to a concrete session
whose login response has status 200 and a patternless body. -/
theorem connect_missing_ticket_pattern_witness :
    sessNoTicket.postLogin.status_code = 200
    ∧ connect sessNoTicket ⟨"user", some "pw", none, none⟩
        = (.error (.runtimeError extractTicketFailMsg),
           ⟨"user", some "pw", none, some sessNoTicket⟩) :=
  ⟨rfl, connect_missing_ticket_pattern sessNoTicket "user" "pw" none none rfl rfl⟩

/-- C9: on a client constructed with `password = None`, `connect()`
assigns a fresh session object and returns successfully without
consulting the login endpoint at all (the result is the same for every
possible login response, since `_authenticate` is skipped), and the
`require_session` precondition check passes afterwards even though no
authentication has occurred. -/
theorem connect_without_password_skips_auth (sess : Session) (u : String)
    (us : Option String) (s0 : Option Session) :
    connect sess ⟨u, none, us, s0⟩ = (.ok (), ⟨u, none, us, some sess⟩)
    ∧ (∀ login2 : HttpResponse,
        connect { sess with postLogin := login2 } ⟨u, none, us, s0⟩
          = (.ok (), ⟨u, none, us, some { sess with postLogin := login2 }⟩))
    ∧ require_session_check (connect sess ⟨u, none, us, s0⟩).2.session = .ok () :=
  ⟨rfl, fun _ => rfl, rfl⟩

/-! C3: mocked paginated upstream for the witness. -/

def batch0 : List ActivityJson := (List.range 100).map (fun i => ⟨i, 1000 + i⟩)

def batch1 : List ActivityJson := (List.range 100).map (fun i => ⟨100 + i, 2000 + i⟩)

def batch2 : List ActivityJson := (List.range 37).map (fun i => ⟨200 + i, 3000 + i⟩)

/-- Decoded-document behaviour of the mocked endpoint: batches of
sizes 100, 100, 37 at offsets 0, 100, 200, and the empty document at
every other offset. -/
def parseMock : String → List ActivityJson := fun s =>
  if s = activitiesUrl 0 100 then batch0
  else if s = activitiesUrl 100 100 then batch1
  else if s = activitiesUrl 200 100 then batch2
  else []

/-- The mocked endpoint echoes the request URL as the response body,
always with status 200; `parseMock` then keys on it. -/
def sessMock : Session :=
  { getResp := fun url => ⟨200, url⟩
    postLogin := ⟨200, ""⟩
    postUpload := fun _ => .malformed ⟨200, ""⟩
    putMetadata := fun _ _ => ⟨204, ""⟩ }

def clientMock : GarminClient := ⟨"user", some "pw", some "me", some sessMock⟩

def entries0 : List (Nat × Nat) := (List.range 100).map (fun i => (i, 1000 + i))

def entries1 : List (Nat × Nat) := (List.range 100).map (fun i => (100 + i, 2000 + i))

def entries2 : List (Nat × Nat) := (List.range 37).map (fun i => (200 + i, 3000 + i))

/-- C3: `list_activities()` requests batches of 100 at offsets 0, 100,
200, ...; against an upstream whose decoded batches have sizes 100,
100 and 37 followed by an empty batch, it stops at the empty batch and
returns exactly the concatenation of the three batches in received
order — 237 entries, with no duplicate identifiers when the upstream
identifiers are distinct. -/
theorem list_activities_pagination (parse : String → List ActivityJson)
    (u : String) (pw us : Option String) (sess : Session)
    (b0 b1 b2 : List (Nat × Nat))
    (hf0 : fetch_activity_ids_and_ts parse ⟨u, pw, us, some sess⟩ 0 100 = .ok b0)
    (hf1 : fetch_activity_ids_and_ts parse ⟨u, pw, us, some sess⟩ 100 100 = .ok b1)
    (hf2 : fetch_activity_ids_and_ts parse ⟨u, pw, us, some sess⟩ 200 100 = .ok b2)
    (hf3 : fetch_activity_ids_and_ts parse ⟨u, pw, us, some sess⟩ 300 100 = .ok [])
    (hl0 : b0.length = 100) (hl1 : b1.length = 100) (hl2 : b2.length = 37)
    (hnd : ((b0 ++ b1 ++ b2).map Prod.fst).Nodup) :
    list_activities parse ⟨u, pw, us, some sess⟩ = .ok (b0 ++ b1 ++ b2)
    ∧ (b0 ++ b1 ++ b2).length = 237
    ∧ ((b0 ++ b1 ++ b2).map Prod.fst).Nodup := by
  have hne0 : b0 ≠ [] := by intro h; subst h; simp at hl0
  have hne1 : b1 ≠ [] := by intro h; subst h; simp at hl1
  have hne2 : b2 ≠ [] := by intro h; subst h; simp at hl2
  have h4 : (4 : Nat) ≤ rangeLen := by norm_num [rangeLen, sysMaxsize]
  refine ⟨?_, by simp [hl0, hl1, hl2], hnd⟩
  have hstart : list_activities parse ⟨u, pw, us, some sess⟩
      = list_activities_loop
          (fun s => fetch_activity_ids_and_ts parse ⟨u, pw, us, some sess⟩ s 100)
          [] rangeLen 0 := rfl
  rw [hstart,
    loop_ok_cons (fun s => fetch_activity_ids_and_ts parse ⟨u, pw, us, some sess⟩ s 100)
      [] rangeLen 0 b0 (by omega) hf0 hne0,
    loop_ok_cons (fun s => fetch_activity_ids_and_ts parse ⟨u, pw, us, some sess⟩ s 100)
      ([] ++ b0) (rangeLen - 1) (0 + 100) b1 (by omega) hf1 hne1,
    loop_ok_cons (fun s => fetch_activity_ids_and_ts parse ⟨u, pw, us, some sess⟩ s 100)
      ([] ++ b0 ++ b1) (rangeLen - 1 - 1) (0 + 100 + 100) b2 (by omega) hf2 hne2,
    loop_ok_nil (fun s => fetch_activity_ids_and_ts parse ⟨u, pw, us, some sess⟩ s 100)
      ([] ++ b0 ++ b1 ++ b2) (rangeLen - 1 - 1 - 1) (0 + 100 + 100 + 100)
      (by omega) hf3]
  simp

set_option maxRecDepth 40000 in
/-- Witness for C3: the pagination theorem applied to the concrete
mocked endpoint, yielding the 237 distinct entries in received
order. -/
theorem list_activities_pagination_witness :
    list_activities parseMock clientMock = .ok (entries0 ++ entries1 ++ entries2)
    ∧ (entries0 ++ entries1 ++ entries2).length = 237
    ∧ ((entries0 ++ entries1 ++ entries2).map Prod.fst).Nodup :=
  list_activities_pagination parseMock "user" (some "pw") (some "me") sessMock
    entries0 entries1 entries2 rfl rfl rfl rfl
    (by decide) (by decide) (by decide) (by decide)

/-- C6: for every response whose status is neither 200 nor 404 nor
204, the fetchers that reach the HTTP layer fail with the request
exception, and its message carries the original status code and the
response body verbatim: `get_data` (hence the daily JSON fetchers and
the GPX/TCX exports, shown for sleep and GPX), `get_original_activity`
and `_fetch_activity_ids_and_ts` (hence `list_activities`). -/
theorem non_success_yields_request_error (s : Nat) (t : String)
    (pl : HttpResponse) (pu : String → UploadPostResult)
    (pm : Int → List (String × Json) → HttpResponse)
    (u : String) (pw us : Option String) (url d : String)
    (aid start limit : Nat)
    (parse : String → List ActivityJson) (decode : String → Option Json)
    (hs200 : s ≠ 200) (hs404 : s ≠ 404) (hs204 : s ≠ 204) :
    get_data (some ⟨fun _ => ⟨s, t⟩, pl, pu, pm⟩) url
        = .error (.exception (failedFetchJsonMsg s t))
    ∧ strContains (failedFetchJsonMsg s t) (Nat.repr s)
    ∧ strContains (failedFetchJsonMsg s t) t
    ∧ get_original_activity ⟨u, pw, us, some ⟨fun _ => ⟨s, t⟩, pl, pu, pm⟩⟩ aid
        = .error (.exception (failedOriginalMsg aid s t))
    ∧ strContains (failedOriginalMsg aid s t) (Nat.repr s)
    ∧ strContains (failedOriginalMsg aid s t) t
    ∧ fetch_activity_ids_and_ts parse ⟨u, pw, us, some ⟨fun _ => ⟨s, t⟩, pl, pu, pm⟩⟩ start limit
        = .error (.exception (failedFetchActivitiesMsg start limit s t))
    ∧ strContains (failedFetchActivitiesMsg start limit s t) (Nat.repr s)
    ∧ strContains (failedFetchActivitiesMsg start limit s t) t
    ∧ get_daily_sleep_data decode ⟨u, pw, us, some ⟨fun _ => ⟨s, t⟩, pl, pu, pm⟩⟩ d
        = .error (.exception (failedFetchJsonMsg s t))
    ∧ get_activity_gpx ⟨u, pw, us, some ⟨fun _ => ⟨s, t⟩, pl, pu, pm⟩⟩ aid
        = .error (.exception (failedFetchJsonMsg s t))
    ∧ list_activities parse ⟨u, pw, us, some ⟨fun _ => ⟨s, t⟩, pl, pu, pm⟩⟩
        = .error (.exception (failedFetchActivitiesMsg 0 100 s t)) := by
  have hget : get_data (some (⟨fun _ => ⟨s, t⟩, pl, pu, pm⟩ : Session)) url
      = .error (.exception (failedFetchJsonMsg s t)) := by
    simp [get_data, hs200, hs404, hs204]
  have hfetch : ∀ st li, fetch_activity_ids_and_ts parse
        ⟨u, pw, us, some ⟨fun _ => ⟨s, t⟩, pl, pu, pm⟩⟩ st li
      = .error (.exception (failedFetchActivitiesMsg st li s t)) := by
    intro st li
    simp [fetch_activity_ids_and_ts, require_session_check, hs200]
  refine ⟨hget, strContains_mid2 _ _ _ _, strContains_right _ _, ?_,
    strContains_mid2 _ _ _ _, strContains_right _ _, hfetch start limit,
    strContains_mid2 _ _ _ _, strContains_right _ _, ?_, ?_, ?_⟩
  · simp [get_original_activity, hs200, hs404]
  · simp [get_daily_sleep_data, require_session_check, get_json_data, get_data,
      hs200, hs404, hs204]
  · simp [get_activity_gpx, require_session_check, get_data, hs200, hs404, hs204]
  · have hloop : list_activities parse ⟨u, pw, us, some ⟨fun _ => ⟨s, t⟩, pl, pu, pm⟩⟩
        = list_activities_loop
            (fun st => fetch_activity_ids_and_ts parse
              ⟨u, pw, us, some ⟨fun _ => ⟨s, t⟩, pl, pu, pm⟩⟩ st 100)
            [] rangeLen 0 := rfl
    have hr : rangeLen ≠ 0 := by norm_num [rangeLen, sysMaxsize]
    rw [hloop]
    cases hcase : rangeLen with
    | zero => exact absurd hcase hr
    | succ f => simp [list_activities_loop, hfetch 0 100]

/-- Session whose every GET returns status 500 with body `oops`. -/
def sess500 : Session :=
  { getResp := fun _ => ⟨500, "oops"⟩
    postLogin := ⟨200, ""⟩
    postUpload := fun _ => .malformed ⟨500, ""⟩
    putMetadata := fun _ _ => ⟨204, ""⟩ }

/-- Witness for C6: the request-error theorem at status 500 with body
`oops`. -/
theorem non_success_yields_request_error_witness :
    (500 : Nat) ≠ 200
    ∧ (get_data (some sess500) "someurl"
          = .error (.exception (failedFetchJsonMsg 500 "oops"))
      ∧ strContains (failedFetchJsonMsg 500 "oops") (Nat.repr 500)
      ∧ strContains (failedFetchJsonMsg 500 "oops") "oops"
      ∧ get_original_activity ⟨"user", some "pw", some "me", some sess500⟩ 3
          = .error (.exception (failedOriginalMsg 3 500 "oops"))
      ∧ strContains (failedOriginalMsg 3 500 "oops") (Nat.repr 500)
      ∧ strContains (failedOriginalMsg 3 500 "oops") "oops"
      ∧ fetch_activity_ids_and_ts parse0 ⟨"user", some "pw", some "me", some sess500⟩ 0 100
          = .error (.exception (failedFetchActivitiesMsg 0 100 500 "oops"))
      ∧ strContains (failedFetchActivitiesMsg 0 100 500 "oops") (Nat.repr 500)
      ∧ strContains (failedFetchActivitiesMsg 0 100 500 "oops") "oops"
      ∧ get_daily_sleep_data decode0 ⟨"user", some "pw", some "me", some sess500⟩ "2020-01-01"
          = .error (.exception (failedFetchJsonMsg 500 "oops"))
      ∧ get_activity_gpx ⟨"user", some "pw", some "me", some sess500⟩ 3
          = .error (.exception (failedFetchJsonMsg 500 "oops"))
      ∧ list_activities parse0 ⟨"user", some "pw", some "me", some sess500⟩
          = .error (.exception (failedFetchActivitiesMsg 0 100 500 "oops"))) :=
  ⟨by decide,
   non_success_yields_request_error 500 "oops" ⟨200, ""⟩
     (fun _ => .malformed ⟨500, ""⟩) (fun _ _ => ⟨204, ""⟩)
     "user" (some "pw") (some "me") "someurl" "2020-01-01" 3 0 100
     parse0 decode0 (by decide) (by decide) (by decide)⟩

/-- Session used by the upload witnesses: the POST reports a single
success with internal id 99 and the metadata PUT returns 204. -/
def sessUpload : Session :=
  { getResp := fun _ => ⟨200, ""⟩
    postLogin := ⟨200, ""⟩
    postUpload := fun _ => .ok ⟨200, ""⟩ ⟨[], [99]⟩
    putMetadata := fun _ _ => ⟨204, ""⟩ }

/-- C7: when `upload_activity` is called without an explicit format,
the format is inferred from the lower-cased file extension, accepting
exactly `.gpx`, `.tcx` and `.fit` (the call then proceeds exactly as
if the extension without its dot had been passed as the format); for
any other extension the call fails with the format exception, and it
does so for every possible session behaviour, i.e. before any network
request is issued. -/
theorem upload_format_inference (sess : Session) (fileName : String)
    (name desc atype : Option String) (p : Option Bool) :
    (¬ (pyLower (splitextBase (pyBasename fileName)).2 = ".gpx"
        ∨ pyLower (splitextBase (pyBasename fileName)).2 = ".tcx"
        ∨ pyLower (splitextBase (pyBasename fileName)).2 = ".fit") →
      ∀ sess2 : Session, upload_activity (some sess2) fileName none name desc atype p
        = .error (.exception (couldNotGuessMsg (pyBasename fileName))))
    ∧ ((pyLower (splitextBase (pyBasename fileName)).2 = ".gpx"
        ∨ pyLower (splitextBase (pyBasename fileName)).2 = ".tcx"
        ∨ pyLower (splitextBase (pyBasename fileName)).2 = ".fit") →
      upload_activity (some sess) fileName none name desc atype p
        = upload_activity (some sess) fileName
            (some ((pyLower (splitextBase (pyBasename fileName)).2).drop 1))
            name desc atype p) := by
  constructor
  · intro h sess2
    simp only [upload_activity]
    rw [if_neg h]
  · intro h
    simp only [upload_activity]
    rw [if_pos h]

/-- Witness for C7: a `.csv` upload fails with the format exception
(under the single-success session, so nothing else could have failed),
and a `.TCX` upload with no explicit format behaves as an explicit
`tcx` upload. -/
theorem upload_format_inference_witness :
    upload_activity (some sessUpload) "activities/morning.csv" none none none none none
        = .error (.exception (couldNotGuessMsg "morning.csv"))
    ∧ upload_activity (some sessUpload) "Run.TCX" none none none none none
        = upload_activity (some sessUpload) "Run.TCX" (some "tcx") none none none none :=
  ⟨(upload_format_inference sessUpload "activities/morning.csv" none none none none).1
      (by decide) sessUpload,
   (upload_format_inference sessUpload "Run.TCX" none none none none).2 (by decide)⟩

/-- C8: whenever the detailed import result has any failure entry, or
zero successes, or more than one success, `upload_activity` fails (with
the failed-upload exception in the first two cases and the
multiple-activities exception in the third), and the metadata update
PUT is never issued: the result is the same for every possible
behaviour of the PUT endpoint — in particular with exactly two
successes. -/
theorem upload_import_result_gate
    (g : String → HttpResponse) (pl : HttpResponse) (pu : String → UploadPostResult)
    (pm : Int → List (String × Json) → HttpResponse)
    (fileName f : String) (name desc atype : Option String) (p : Option Bool)
    (r : HttpResponse) (j : DetailedImportResult)
    (hpost : pu f = .ok r j)
    (h : j.failures.length ≠ 0 ∨ j.successes.length = 0 ∨ 1 < j.successes.length) :
    upload_activity (some ⟨g, pl, pu, pm⟩) fileName (some f) name desc atype p
      = .error (if j.failures.length ≠ 0 ∨ j.successes.length < 1
                then .uploadFailures f r.status_code j.failures
                else .uploadMultiple f j.successes.length)
    ∧ ∀ pm2 : Int → List (String × Json) → HttpResponse,
        upload_activity (some ⟨g, pl, pu, pm2⟩) fileName (some f) name desc atype p
          = upload_activity (some ⟨g, pl, pu, pm⟩) fileName (some f) name desc atype p := by
  have hbody : ∀ pm3 : Int → List (String × Json) → HttpResponse,
      upload_activity (some ⟨g, pl, pu, pm3⟩) fileName (some f) name desc atype p
        = .error (if j.failures.length ≠ 0 ∨ j.successes.length < 1
                  then .uploadFailures f r.status_code j.failures
                  else .uploadMultiple f j.successes.length) := by
    intro pm3
    simp only [upload_activity, hpost]
    by_cases h1 : j.failures.length ≠ 0 ∨ j.successes.length < 1
    · rw [if_pos h1, if_pos h1]
    · rw [if_neg h1]
      have h2 : 1 < j.successes.length := by omega
      rw [if_pos h2, if_neg h1]
  exact ⟨hbody pm, fun pm2 => (hbody pm2).trans (hbody pm).symm⟩

def importTwo : DetailedImportResult := ⟨[], [7, 8]⟩

def uploadGet0 : String → HttpResponse := fun _ => ⟨200, ""⟩

def uploadPost2 : String → UploadPostResult := fun _ => .ok ⟨200, "resp"⟩ importTwo

def uploadPut0 : Int → List (String × Json) → HttpResponse := fun _ _ => ⟨204, ""⟩

def uploadPutAlt : Int → List (String × Json) → HttpResponse := fun _ _ => ⟨500, "boom"⟩

/-- Witness for C8: an import result with exactly two successes makes
the upload fail with the multiple-activities exception, and the result
does not change when the metadata PUT endpoint is replaced (no PUT is
issued). -/
theorem upload_import_result_gate_witness :
    upload_activity (some ⟨uploadGet0, ⟨200, ""⟩, uploadPost2, uploadPut0⟩)
        "w.gpx" (some "gpx") none (some "d") none none
      = .error (.uploadMultiple "gpx" 2)
    ∧ upload_activity (some ⟨uploadGet0, ⟨200, ""⟩, uploadPost2, uploadPutAlt⟩)
        "w.gpx" (some "gpx") none (some "d") none none
      = upload_activity (some ⟨uploadGet0, ⟨200, ""⟩, uploadPost2, uploadPut0⟩)
        "w.gpx" (some "gpx") none (some "d") none none := by
  have H := upload_import_result_gate uploadGet0 ⟨200, ""⟩ uploadPost2 uploadPut0
    "w.gpx" "gpx" none (some "d") none none ⟨200, "resp"⟩ importTwo rfl
    (Or.inr (Or.inr (by decide)))
  refine ⟨?_, H.2 uploadPutAlt⟩
  simpa [importTwo] using H.1

/-- C10: when a description argument is supplied, the metadata body
built by `upload_activity` (line 366: `data['description'] = name`)
assigns the `description` key the value of the `name` argument —
`null` when `name` is absent — and the supplied description value is
never transmitted: the body, and the whole upload result, are
unchanged when the description value is replaced by any other. -/
theorem upload_description_takes_name_value (name : Option String)
    (d d2 : String) (atype : Option String) (p : Option Bool)
    (sess : Session) (fileName : String) (fmt : Option String) :
    (build_upload_data name (some d) atype p).lookup "description"
        = some (jsonOfPyStr name)
    ∧ build_upload_data name (some d2) atype p
        = build_upload_data name (some d) atype p
    ∧ upload_activity (some sess) fileName fmt name (some d2) atype p
        = upload_activity (some sess) fileName fmt name (some d) atype p := by
  refine ⟨?_, rfl, rfl⟩
  cases name <;> rfl
